import Mathlib

/-!
Verification of the agent dispatch and session-state subsystem of the
base-trading-agent repository.

The TypeScript sources are shallowly embedded as executable Lean
definitions:

* JavaScript `Map<string, V>` stores become association lists
  `List (String × V)` with `alookup` / `aset` / `aerase` (a `Map` never
  holds duplicate keys, so erasing every binding of a key is
  extensionally the same as `Map.delete`);
* JavaScript numbers used for money and rates become `ℚ`, scores become
  `ℤ`, timestamps (`new Date()`) become an explicit `Nat` parameter;
* code that throws becomes `Except`-valued; the distinct thrown message
  strings / returned failure messages become constructors of error
  inductives, named after the source messages;
* `Math.random() > 0.5` in the trivia game and the opaque `Function`
  expression evaluator and blockchain transfer calls become explicit
  oracle parameters, so every definition stays a pure total function.
-/

/-- Association-list lookup, modelling `Map.get`: the first binding of the
key wins (a JS `Map` has at most one). -/
def alookup {β : Type} (k : String) : List (String × β) → Option β
  | [] => none
  | p :: t => if p.1 = k then some p.2 else alookup k t

/-- Remove every binding of a key, modelling `Map.delete`. -/
def aerase {β : Type} (k : String) : List (String × β) → List (String × β)
  | [] => []
  | p :: t => if p.1 = k then aerase k t else p :: aerase k t

/-- Insert-or-overwrite a binding, modelling `Map.set` (and JS object
property assignment). -/
def aset {β : Type} (k : String) (v : β) (l : List (String × β)) :
    List (String × β) :=
  (k, v) :: aerase k l

theorem alookup_aerase_self {β : Type} (k : String) (l : List (String × β)) :
    alookup k (aerase k l) = none := by
  induction l with
  | nil => rfl
  | cons p t ih =>
    by_cases h : p.1 = k
    · simp [aerase, h, ih]
    · simp [aerase, alookup, h, ih]

theorem alookup_aerase_ne {β : Type} {k g : String} (h : k ≠ g)
    (l : List (String × β)) : alookup g (aerase k l) = alookup g l := by
  induction l with
  | nil => rfl
  | cons p t ih =>
    by_cases hp : p.1 = k
    · have hg : ¬ p.1 = g := by rw [hp]; exact h
      simp only [aerase, alookup, if_pos hp, if_neg hg]
      exact ih
    · simp only [aerase, alookup, if_neg hp]
      by_cases hpg : p.1 = g
      · simp [alookup, hpg]
      · simp only [alookup, if_neg hpg]
        exact ih

theorem alookup_aset_self {β : Type} (k : String) (v : β)
    (l : List (String × β)) : alookup k (aset k v l) = some v := by
  simp [aset, alookup]

theorem alookup_aset_ne {β : Type} {k g : String} (h : k ≠ g) (v : β)
    (l : List (String × β)) : alookup g (aset k v l) = alookup g l := by
  simp [aset, alookup, fun hh : k = g => h hh, alookup_aerase_ne h]

theorem alookup_aset {β : Type} (k g : String) (v : β)
    (l : List (String × β)) :
    alookup g (aset k v l) = if k = g then some v else alookup g l := by
  by_cases h : k = g
  · subst h; simp [alookup_aset_self]
  · simp [h, alookup_aset_ne h]

theorem alookup_mem {β : Type} {k : String} {v : β}
    {l : List (String × β)} (h : alookup k l = some v) : (k, v) ∈ l := by
  induction l with
  | nil => simp [alookup] at h
  | cons p t ih =>
    obtain ⟨a, b⟩ := p
    by_cases hp : a = k
    · subst hp
      simp [alookup] at h
      subst h
      exact List.mem_cons_self _ _
    · simp [alookup, hp] at h
      exact List.mem_cons_of_mem _ (ih h)

/-- ASCII lowercasing, modelling `String.prototype.toLowerCase` on the
ASCII keyword sets used by the handlers. -/
def lowerStr (s : String) : String := String.mk (s.data.map Char.toLower)

/-- ASCII uppercasing, modelling `String.prototype.toUpperCase` on the
currency codes of the mock rate table. -/
def upperStr (s : String) : String := String.mk (s.data.map Char.toUpper)

/-- Does the character list start with the given pattern?  Helper for the
`String.prototype.includes` model. -/
def listStartsWith : List Char → List Char → Bool
  | _, [] => true
  | [], _ :: _ => false
  | c :: cs, d :: ds => (c == d) && listStartsWith cs ds

/-- Does the character list contain the pattern as a contiguous run?
Helper for the `String.prototype.includes` model. -/
def listContainsSub (sub : List Char) : List Char → Bool
  | [] => sub.isEmpty
  | c :: cs => listStartsWith (c :: cs) sub || listContainsSub sub cs

/-- Substring test, modelling `haystack.includes(needle)`. -/
def strIncludes (s sub : String) : Bool := listContainsSub sub.data s.data

theorem listStartsWith_iff (l sub : List Char) :
    listStartsWith l sub = true ↔ ∃ t, l = sub ++ t := by
  induction sub generalizing l with
  | nil => simp [listStartsWith]
  | cons d ds ih =>
    cases l with
    | nil => simp [listStartsWith]
    | cons c cs =>
      simp only [listStartsWith, Bool.and_eq_true, beq_iff_eq, ih,
        List.cons_append]
      constructor
      · rintro ⟨rfl, t, rfl⟩
        exact ⟨t, rfl⟩
      · rintro ⟨t, h⟩
        injection h with h1 h2
        exact ⟨h1, t, h2⟩

theorem listContainsSub_iff (sub l : List Char) :
    listContainsSub sub l = true ↔ ∃ p t, l = p ++ sub ++ t := by
  induction l with
  | nil =>
    simp only [listContainsSub]
    constructor
    · intro hsub
      have hs : sub = [] := by
        cases sub with
        | nil => rfl
        | cons a b => simp [List.isEmpty] at hsub
      exact ⟨[], [], by simp [hs]⟩
    · rintro ⟨p, t, h⟩
      obtain ⟨h12, ht⟩ := List.append_eq_nil.mp h.symm
      obtain ⟨hp, hs⟩ := List.append_eq_nil.mp h12
      simp [hs, List.isEmpty]
  | cons c cs ih =>
    simp only [listContainsSub, Bool.or_eq_true, listStartsWith_iff, ih]
    constructor
    · rintro (⟨t, h⟩ | ⟨p, t, h⟩)
      · exact ⟨[], t, by simpa using h⟩
      · exact ⟨c :: p, t, by simp [h]⟩
    · rintro ⟨p, t, h⟩
      cases p with
      | nil =>
        left
        exact ⟨t, by simpa using h⟩
      | cons c' p' =>
        right
        simp only [List.cons_append, List.append_assoc] at h
        injection h with h1 h2
        exact ⟨p', t, by simp [h2]⟩

theorem strIncludes_iff (s sub : String) :
    strIncludes s sub = true ↔ ∃ p t, s.data = p ++ sub.data ++ t :=
  listContainsSub_iff sub.data s.data

/-!
## Shared session types (`src/lib/types` / `../types`)

`PaymentSplit` and friends as used by both utility agents.  The source
status string `'partial'` is a Lean keyword and is modelled by the
constructor `partiallyPaid`.
-/

inductive SplitMethod
  | equal
  | custom
  | percentage
deriving DecidableEq

inductive SplitStatus
  | pending
  | partiallyPaid
  | settled
deriving DecidableEq

structure PaymentParticipant where
  address : String
  amount : ℚ
  paid : Bool
deriving DecidableEq

structure PaymentSplit where
  id : String
  totalAmount : ℚ
  currency : String
  participants : List PaymentParticipant
  method : SplitMethod
  status : SplitStatus
deriving DecidableEq

/-- The per-participant owed amounts of a split, in participant order. -/
def owedAmounts (s : PaymentSplit) : List ℚ :=
  s.participants.map fun p => p.amount

namespace UtilityAgent

/-!
`UtilityAgent.createPaymentSplit` from `src/lib/agents/utility-agent.ts`
(lines 116-137): `amountPerPerson` is `totalAmount / participants.length`
for the `equal` method and `0` otherwise; every participant starts
unpaid; the split is stored as `pending`.
-/

def createPaymentSplit (splits : List (String × PaymentSplit))
    (splitId : String) (totalAmount : ℚ) (currency : String)
    (participants : List String) (method : SplitMethod) :
    List (String × PaymentSplit) × PaymentSplit :=
  let amountPerPerson : ℚ :=
    if method = SplitMethod.equal then totalAmount / participants.length else 0
  let split : PaymentSplit :=
    { id := splitId
      totalAmount := totalAmount
      currency := currency
      participants := participants.map fun address =>
        { address := address, amount := amountPerPerson, paid := false }
      method := method
      status := SplitStatus.pending }
  (aset splitId split splits, split)

end UtilityAgent

namespace UtilityProd

/-!
The `create_payment_split` tool of the AgentKit-backed utility agent
(`src/unnamed/part_001`, lines 101-152).  The real USDC transfer
(`executeTransfer`) is an external fallible call and is modelled by the
oracle `transferOk : String → Bool` giving each participant transfer's
outcome.  Note that after the transfers run, the stored split is never
touched again: no paid-flag is flipped and the status stays `pending`.
-/

structure TransferOutcome where
  address : String
  success : Bool
deriving DecidableEq

def create_payment_split (transferOk : String → Bool)
    (splits : List (String × PaymentSplit)) (splitId : String)
    (totalAmount : ℚ) (participants : List String) :
    List (String × PaymentSplit) × List TransferOutcome :=
  let amountPerPerson : ℚ := totalAmount / participants.length
  let split : PaymentSplit :=
    { id := splitId
      totalAmount := totalAmount
      currency := "USDC"
      participants := participants.map fun address =>
        { address := address, amount := amountPerPerson, paid := false }
      method := SplitMethod.equal
      status := SplitStatus.pending }
  let splits' := aset splitId split splits
  let transfers := participants.map fun address =>
    { address := address, success := transferOk address : TransferOutcome }
  (splits', transfers)

end UtilityProd

/-- Sum of a constant-valued map over a list. -/
theorem sum_map_const {α : Type} (l : List α) (c : ℚ) :
    (l.map fun _ => c).sum = l.length * c := by
  induction l with
  | nil => simp
  | cons a t ih =>
    simp only [List.map_cons, List.sum_cons, List.length_cons, ih]
    push_cast
    ring

namespace MiniAppAgent

/-!
## MiniAppAgent (`src/unnamed/part_000`)

Sessions, the fixed app registry, and the calculator / converter / poll
interactions.  The `Function`-based expression evaluator is an opaque
fallible call and is modelled by an oracle `evalFn : String → Option ℚ`
(`none` models a throw).  `new Date()` timestamps are modelled by an
explicit `now : Nat` argument.
-/

structure MiniAppDefinition where
  id : String
  name : String
  description : String
  version : String
  icon : String
  category : String
  permissions : List String
  url : String
  isActive : Bool
deriving DecidableEq

/-- The six apps installed by `initializeApps`. -/
def availableApps : List (String × MiniAppDefinition) :=
  [("calculator",
    { id := "calculator", name := "Calculator"
      description := "Perform mathematical calculations"
      version := "1.0.0", icon := "🧮", category := "utility"
      permissions := [], url := "/apps/calculator", isActive := true }),
   ("currency-converter",
    { id := "currency-converter", name := "Currency Converter"
      description := "Convert between fiat and cryptocurrencies"
      version := "1.0.0", icon := "💱", category := "finance"
      permissions := ["price_data"], url := "/apps/converter"
      isActive := true }),
   ("poll-creator",
    { id := "poll-creator", name := "Poll Creator"
      description := "Create polls and surveys for group decisions"
      version := "1.0.0", icon := "📊", category := "social"
      permissions := ["group_messaging"], url := "/apps/polls"
      isActive := true }),
   ("expense-tracker",
    { id := "expense-tracker", name := "Expense Tracker"
      description := "Track and split expenses among group members"
      version := "1.0.0", icon := "💰", category := "finance"
      permissions := ["group_data", "payments"], url := "/apps/expenses"
      isActive := true }),
   ("token-scanner",
    { id := "token-scanner", name := "Token Scanner"
      description := "Scan and analyze token contracts and safety"
      version := "1.0.0", icon := "🔍", category := "defi"
      permissions := ["blockchain_data"], url := "/apps/scanner"
      isActive := true }),
   ("nft-viewer",
    { id := "nft-viewer", name := "NFT Viewer"
      description := "View and share NFT collections"
      version := "1.0.0", icon := "🎨", category := "nft"
      permissions := ["blockchain_data"], url := "/apps/nfts"
      isActive := true })]

/-- A value stored in a session's state blob.  The source keeps an
untyped record; the three shapes actually written by the app handlers
are `lastCalculation`, `lastConversion` and `votes`. -/
inductive StateVal
  | calcVal (expression : String) (result : ℚ)
  | convVal (amount : ℚ) (fromCur toCur : String) (result rate : ℚ)
  | votesVal (votes : List (String × Nat))
deriving DecidableEq

/-- The state blob: a string-keyed record. -/
def AppState : Type := List (String × StateVal)

instance : DecidableEq AppState := by
  unfold AppState
  infer_instance

structure MiniAppSession where
  id : String
  appId : String
  conversationId : String
  participants : List String
  state : AppState
  startTime : Nat
  lastActivity : Nat
  isActive : Bool
deriving DecidableEq

/-- The agent's mutable stores: `activeSessions` and `userSessions`. -/
structure MiniAppAgentState where
  activeSessions : List (String × MiniAppSession)
  userSessions : List (String × List String)
deriving DecidableEq

/-- Spread-merge `{ ...old, ...update }`: keys of `update` overwrite,
other keys persist; an absent (`undefined`) update changes nothing. -/
def mergeState (old : AppState) (update : Option AppState) : AppState :=
  match update with
  | none => old
  | some u => u.foldl (fun acc kv => aset kv.1 kv.2 acc) old

/-- The optional `data` record of an `interact` call; each field models
one property read by an app handler (absent fields are `undefined`). -/
structure InteractData where
  expression : Option String := none
  amount : Option ℚ := none
  fromCur : Option String := none
  toCur : Option String := none
  voteOption : Option Nat := none
deriving DecidableEq

/-- The distinct result messages produced by `interactWithApp` and the
app-specific handlers (interpolated values kept as payloads). -/
inductive InteractMsg
  | sessionNotFound
  | notAuthorized
  | appNotFound
  | unknownAppInteraction
  | calcResult (expression : String) (result : ℚ)
  | invalidExpression
  | invalidCalculatorAction
  | convResult (amount : ℚ) (fromCur toCur : String) (result : ℚ)
  | invalidConversionParams
  | voteRecorded (option : Nat)
  | invalidPollAction
deriving DecidableEq

structure InteractResult where
  success : Bool
  message : InteractMsg
  newState : Option AppState := none
deriving DecidableEq

inductive EvalErr
  | invalidChars
  | invalidMath
deriving DecidableEq

/-- The character class `[0-9+\-*/.() ]` of `evaluateExpression`. -/
def allowedChar (c : Char) : Bool :=
  c.isDigit || c = '+' || c = '-' || c = '*' || c = '/' || c = '.' ||
    c = '(' || c = ')' || c = ' '

/-- `expression.replace(/[^0-9+\-*\/.() ]/g, '')`: keep the allowed
characters, in order. -/
def sanitize (s : String) : String := String.mk (s.data.filter allowedChar)

/-- `evaluateExpression`: reject the expression if sanitizing changed it,
otherwise hand it to the opaque evaluator (whose throw is `none`). -/
def evaluateExpression (evalFn : String → Option ℚ) (expression : String) :
    Except EvalErr ℚ :=
  let sanitized := sanitize expression
  if sanitized ≠ expression then Except.error EvalErr.invalidChars
  else
    match evalFn sanitized with
    | some v => Except.ok v
    | none => Except.error EvalErr.invalidMath

/-- The `calculate` tool is a thin wrapper over `evaluateExpression`. -/
def calculate (evalFn : String → Option ℚ) (expression : String) :
    Except EvalErr ℚ :=
  evaluateExpression evalFn expression

/-- The fixed mock rate table of `getMockConversionRate`. -/
def mockRates : List (String × List (String × ℚ)) :=
  [("USD", [("ETH", 3 / 10000), ("BTC", 15 / 1000000), ("EUR", 85 / 100)]),
   ("ETH", [("USD", 3500), ("BTC", 5 / 100), ("EUR", 2975)]),
   ("BTC", [("USD", 67000), ("ETH", 20), ("EUR", 56950)]),
   ("EUR", [("USD", 118 / 100), ("ETH", 34 / 100000),
            ("BTC", 18 / 1000000)])]

/-- `rates[from.toUpperCase()]?.[to.toUpperCase()] || 1`; the `|| 1`
also maps a zero rate to 1 (JS falsiness), though the table has none. -/
def getMockConversionRate (fromCur toCur : String) : ℚ :=
  match alookup (upperStr fromCur) mockRates with
  | none => 1
  | some inner =>
    match alookup (upperStr toCur) inner with
    | none => 1
    | some r => if r = 0 then 1 else r

/-- `convertCurrency` returns the converted amount and the rate used. -/
def convertCurrency (amount : ℚ) (fromCur toCur : String) : ℚ × ℚ :=
  let rate := getMockConversionRate fromCur toCur
  (amount * rate, rate)

/-- `handleCalculatorInteraction`: requires action `calculate` and a
truthy (present, non-empty) `data.expression`. -/
def handleCalculatorInteraction (evalFn : String → Option ℚ)
    (action : String) (data : Option InteractData) : InteractResult :=
  match data.bind InteractData.expression with
  | some e =>
    if action = "calculate" ∧ e ≠ "" then
      match evaluateExpression evalFn e with
      | Except.ok v =>
        { success := true, message := InteractMsg.calcResult e v
          newState := some [("lastCalculation", StateVal.calcVal e v)] }
      | Except.error _ =>
        { success := false, message := InteractMsg.invalidExpression }
    else { success := false, message := InteractMsg.invalidCalculatorAction }
  | none =>
    { success := false, message := InteractMsg.invalidCalculatorAction }

/-- `handleConverterInteraction`: requires action `convert` and truthy
`amount` / `from` / `to` (non-zero number, non-empty strings). -/
def handleConverterInteraction (action : String)
    (data : Option InteractData) : InteractResult :=
  match data.bind InteractData.amount, data.bind InteractData.fromCur,
      data.bind InteractData.toCur with
  | some a, some f, some t =>
    if action = "convert" ∧ a ≠ 0 ∧ f ≠ "" ∧ t ≠ "" then
      let rate := getMockConversionRate f t
      let result := a * rate
      { success := true, message := InteractMsg.convResult a f t result
        newState := some [("lastConversion",
          StateVal.convVal a f t result rate)] }
    else { success := false, message := InteractMsg.invalidConversionParams }
  | _, _, _ =>
    { success := false, message := InteractMsg.invalidConversionParams }

/-- `handlePollInteraction`: action `vote` with a present `data.option`
records the vote into the `votes` record of the state blob
(`session.state.votes || {}`; a non-record value under `votes` is not
representable in this typed blob and is read as the empty record). -/
def handlePollInteraction (session : MiniAppSession) (userId : String)
    (action : String) (data : Option InteractData) : InteractResult :=
  match data.bind InteractData.voteOption with
  | some opt =>
    if action = "vote" then
      let votes : List (String × Nat) :=
        match alookup "votes" session.state with
        | some (StateVal.votesVal vs) => vs
        | _ => []
      { success := true, message := InteractMsg.voteRecorded opt
        newState := some [("votes", StateVal.votesVal
          (aset userId opt votes))] }
    else { success := false, message := InteractMsg.invalidPollAction }
  | none => { success := false, message := InteractMsg.invalidPollAction }

/-- `processAppInteraction` dispatches on the session's app id. -/
def processAppInteraction (evalFn : String → Option ℚ)
    (session : MiniAppSession) (userId : String) (action : String)
    (data : Option InteractData) : InteractResult :=
  if session.appId = "calculator" then
    handleCalculatorInteraction evalFn action data
  else if session.appId = "currency-converter" then
    handleConverterInteraction action data
  else if session.appId = "poll-creator" then
    handlePollInteraction session userId action data
  else { success := false, message := InteractMsg.unknownAppInteraction }

/-- `interactWithApp` (lines 307-336): session / participant / app
checks, then the app-specific handler, then — regardless of the
handler's success flag — `lastActivity` is set and the handler's
`newState` is spread-merged into the state blob. -/
def interactWithApp (evalFn : String → Option ℚ)
    (st : MiniAppAgentState) (sessionId userId action : String)
    (data : Option InteractData) (now : Nat) :
    MiniAppAgentState × InteractResult :=
  match alookup sessionId st.activeSessions with
  | none => (st, { success := false, message := InteractMsg.sessionNotFound })
  | some session =>
    if userId ∈ session.participants then
      match alookup session.appId availableApps with
      | none => (st, { success := false, message := InteractMsg.appNotFound })
      | some _ =>
        let result := processAppInteraction evalFn session userId action data
        let session' := { session with
          lastActivity := now
          state := mergeState session.state result.newState }
        ({ st with
            activeSessions := aset sessionId session' st.activeSessions },
         result)
    else (st, { success := false, message := InteractMsg.notAuthorized })

inductive CloseErr
  | sessionNotFound
  | notAuthorizedToClose
deriving DecidableEq

/-- `closeApp` (lines 417-436): rejects an unknown session or a
non-participant caller; otherwise flags the session inactive, deletes it
from `activeSessions` and strips its id from each participant's
`userSessions` list.  (The `isActive := false` write lands on the object
just before deletion, so the store effect is the deletion.) -/
def closeApp (st : MiniAppAgentState) (sessionId userId : String) :
    MiniAppAgentState × Except CloseErr Unit :=
  match alookup sessionId st.activeSessions with
  | none => (st, Except.error CloseErr.sessionNotFound)
  | some session =>
    if userId ∈ session.participants then
      let active' := aerase sessionId st.activeSessions
      let users' := session.participants.foldl
        (fun us pid =>
          aset pid (((alookup pid us).getD []).filter fun i => i != sessionId)
            us)
        st.userSessions
      ({ activeSessions := active', userSessions := users' }, Except.ok ())
    else (st, Except.error CloseErr.notAuthorizedToClose)

end MiniAppAgent

namespace GameAgent

/-!
## GameAgent (`src/unnamed/part_002`)

Game sessions and the four operations that touch the `activeGames`
store.  The trivia coin-flip `Math.random() > 0.5` is the oracle
argument `isCorrect`.  Scores live both on the players and in the
`scores` record; only the record is ever bumped by moves.
-/

inductive GameStatus
  | waiting
  | active
  | completed
  | cancelled
deriving DecidableEq

structure GamePlayer where
  address : String
  score : ℤ
  isActive : Bool
  joinedAt : Nat
deriving DecidableEq

structure GameType where
  id : String
  name : String
  description : String
  minPlayers : Nat
  maxPlayers : Nat
  duration : Nat
  category : String
deriving DecidableEq

structure GameBet where
  id : String
  player : String
  amount : ℚ
  currency : String
  prediction : String
deriving DecidableEq

structure GameSession where
  id : String
  gameType : String
  players : List GamePlayer
  status : GameStatus
  currentRound : Nat
  totalRounds : Nat
  startTime : Nat
  scores : List (String × ℤ)
  bets : List GameBet
deriving DecidableEq

/-- A move payload (`move: any`): the word game reads a string, the
number game a number.  (A JS numeric string would coerce in the number
game; an integer-literal string is modelled via `String.toInt?`, any
other string behaves like `NaN`.) -/
inductive Move
  | mstr (s : String)
  | mnum (n : ℤ)
deriving DecidableEq

/-- The four game types installed by `initializeGameTypes`. -/
def gameTypes : List (String × GameType) :=
  [("trivia",
    { id := "trivia", name := "Trivia Quiz"
      description := "Answer questions to earn points"
      minPlayers := 2, maxPlayers := 10, duration := 15
      category := "trivia" }),
   ("word-chain",
    { id := "word-chain", name := "Word Chain"
      description := "Build words from the last letter of previous word"
      minPlayers := 2, maxPlayers := 6, duration := 10
      category := "word" }),
   ("number-guess",
    { id := "number-guess", name := "Number Guessing"
      description := "Guess the number in the fewest attempts"
      minPlayers := 2, maxPlayers := 8, duration := 5
      category := "number" }),
   ("crypto-prediction",
    { id := "crypto-prediction", name := "Crypto Price Prediction"
      description := "Predict crypto price movements"
      minPlayers := 2, maxPlayers := 20, duration := 30
      category := "strategy" })]

/-- `calculateRounds`, switching on the game type's category. -/
def calculateRounds (gt : GameType) : Nat :=
  if gt.category = "trivia" then 10
  else if gt.category = "word" then 15
  else if gt.category = "number" then 5
  else if gt.category = "strategy" then 3
  else 5

/-- The distinct messages returned by the move processors. -/
inductive MoveMsg
  | correctPlus10
  | incorrectAnswer
  | validWord (points : Nat)
  | invalidWord
  | perfectPlus100
  | closePlus20
  | tooFarOff
  | predictionRecorded
  | unknownGameType
deriving DecidableEq

structure MoveResult where
  success : Bool
  message : MoveMsg
deriving DecidableEq

inductive GameErr
  | gameTypeNotFound
  | invalidPlayerCount
  | gameNotFound
  | gameAlreadyStarted
  | gameIsFull
  | playerNotInGame
  | gameTypeMissing
deriving DecidableEq

def GameStore : Type := List (String × GameSession)

instance : DecidableEq GameStore := by
  unfold GameStore
  infer_instance

/-- `scores[playerAddress] += d` (every reachable player has a score
entry; on a missing key JS would produce `NaN`, modelled as starting
from 0). -/
def bumpScore (address : String) (d : ℤ) (scores : List (String × ℤ)) :
    List (String × ℤ) :=
  aset address (((alookup address scores).getD 0) + d) scores

/-- `startGame` (lines 195-238): validates the game type and the player
count, then stores a fresh `waiting` session at round 1. -/
def startGame (st : GameStore) (newId : String) (time : Nat)
    (gameTypeId : String) (playerAddresses : List String) :
    GameStore × Except GameErr GameSession :=
  match alookup gameTypeId gameTypes with
  | none => (st, Except.error GameErr.gameTypeNotFound)
  | some gt =>
    if playerAddresses.length < gt.minPlayers ∨
        playerAddresses.length > gt.maxPlayers then
      (st, Except.error GameErr.invalidPlayerCount)
    else
      let session : GameSession :=
        { id := newId
          gameType := gameTypeId
          players := playerAddresses.map fun address =>
            { address := address, score := 0, isActive := true
              joinedAt := time }
          status := GameStatus.waiting
          currentRound := 1
          totalRounds := calculateRounds gt
          startTime := time
          scores := playerAddresses.foldl (fun sc a => aset a 0 sc) []
          bets := [] }
      (aset newId session st, Except.ok session)

/-- `joinGame` (lines 240-266): only a `waiting`, non-full game can be
joined; a successful join appends the player and zeroes their score. -/
def joinGame (st : GameStore) (gameId : String) (playerAddress : String)
    (time : Nat) : GameStore × Except GameErr Unit :=
  match alookup gameId st with
  | none => (st, Except.error GameErr.gameNotFound)
  | some session =>
    if session.status ≠ GameStatus.waiting then
      (st, Except.error GameErr.gameAlreadyStarted)
    else
      match alookup session.gameType gameTypes with
      | none => (st, Except.error GameErr.gameTypeMissing)
      | some gt =>
        if session.players.length ≥ gt.maxPlayers then
          (st, Except.error GameErr.gameIsFull)
        else
          let session' := { session with
            players := session.players ++
              [{ address := playerAddress, score := 0, isActive := true
                 joinedAt := time }]
            scores := aset playerAddress 0 session.scores }
          (aset gameId session' st, Except.ok ())

/-- `processTriviaMove` (lines 305-315): the oracle decides correctness;
a correct answer bumps the caller's score by 10. -/
def processTriviaMove (session : GameSession) (playerAddress : String)
    (isCorrect : Bool) : GameSession × MoveResult :=
  if isCorrect then
    ({ session with scores := bumpScore playerAddress 10 session.scores },
     { success := true, message := MoveMsg.correctPlus10 })
  else (session, { success := false, message := MoveMsg.incorrectAnswer })

/-- `processWordMove`: words longer than 2 characters score their
length (a non-string move has no `length` and is invalid). -/
def processWordMove (session : GameSession) (playerAddress : String)
    (mv : Move) : GameSession × MoveResult :=
  match mv with
  | Move.mstr word =>
    if word.length > 2 then
      ({ session with
          scores := bumpScore playerAddress word.length session.scores },
       { success := true, message := MoveMsg.validWord word.length })
    else (session, { success := false, message := MoveMsg.invalidWord })
  | Move.mnum _ =>
    (session, { success := false, message := MoveMsg.invalidWord })

/-- The numeric value of a move (JS `Number` coercion: a number is
itself, an integer-literal string coerces, anything else is `NaN`,
modelled as `none`). -/
def numGuess : Move → Option ℤ
  | Move.mnum n => some n
  | Move.mstr s => s.toInt?

/-- `processNumberMove`: distance from the fixed target 42
(`difference` is `Math.abs(guess - 42)`; with a `NaN` guess every
comparison is false, landing in the `Too far off` branch). -/
def processNumberMove (session : GameSession) (playerAddress : String)
    (mv : Move) : GameSession × MoveResult :=
  match numGuess mv with
  | none => (session, { success := false, message := MoveMsg.tooFarOff })
  | some guess =>
    if |guess - 42| = 0 then
      ({ session with scores := bumpScore playerAddress 100 session.scores },
       { success := true, message := MoveMsg.perfectPlus100 })
    else if |guess - 42| ≤ 5 then
      ({ session with scores := bumpScore playerAddress 20 session.scores },
       { success := true, message := MoveMsg.closePlus20 })
    else (session, { success := false, message := MoveMsg.tooFarOff })

/-- `processStrategyMove`: 5 participation points, always succeeds. -/
def processStrategyMove (session : GameSession) (playerAddress : String) :
    GameSession × MoveResult :=
  ({ session with scores := bumpScore playerAddress 5 session.scores },
   { success := true, message := MoveMsg.predictionRecorded })

/-- `processMove` (lines 288-303): dispatch on the game type's category;
the source's non-null assertion on the game-type lookup would crash on a
missing type, modelled as `none`. -/
def processMove (session : GameSession) (playerAddress : String)
    (mv : Move) (isCorrect : Bool) : Option (GameSession × MoveResult) :=
  match alookup session.gameType gameTypes with
  | none => none
  | some gt =>
    if gt.category = "trivia" then
      some (processTriviaMove session playerAddress isCorrect)
    else if gt.category = "word" then
      some (processWordMove session playerAddress mv)
    else if gt.category = "number" then
      some (processNumberMove session playerAddress mv)
    else if gt.category = "strategy" then
      some (processStrategyMove session playerAddress)
    else
      some (session,
        { success := false, message := MoveMsg.unknownGameType })

/-- `makeMove` (lines 268-286): unknown game or non-participant caller
throws before any mutation; otherwise the processed session is stored.
No check of `session.status` is performed. -/
def makeMove (st : GameStore) (gameId : String) (playerAddress : String)
    (mv : Move) (isCorrect : Bool) :
    GameStore × Except GameErr MoveResult :=
  match alookup gameId st with
  | none => (st, Except.error GameErr.gameNotFound)
  | some session =>
    match session.players.find? (fun p => p.address == playerAddress) with
    | none => (st, Except.error GameErr.playerNotInGame)
    | some _ =>
      match processMove session playerAddress mv isCorrect with
      | none => (st, Except.error GameErr.gameTypeMissing)
      | some (session', result) =>
        (aset gameId session' st, Except.ok result)

/-- `placeBet` (lines 351-373): appends a bet to a known game. -/
def placeBet (st : GameStore) (gameId : String) (playerAddress : String)
    (amount : ℚ) (prediction : String) (betId : String) :
    GameStore × Except GameErr GameBet :=
  match alookup gameId st with
  | none => (st, Except.error GameErr.gameNotFound)
  | some session =>
    let bet : GameBet :=
      { id := betId, player := playerAddress, amount := amount
        currency := "ETH", prediction := prediction }
    let session' := { session with bets := session.bets ++ [bet] }
    (aset gameId session' st, Except.ok bet)

/-- The game stores reachable from the empty store through the agent's
operations (each constructor keeps the store component of an operation,
whether the operation succeeded or threw). -/
inductive ReachableStore : GameStore → Prop
  | empty : ReachableStore []
  | start (st : GameStore) (newId : String) (time : Nat)
      (gameTypeId : String) (addrs : List String) :
      ReachableStore st →
      ReachableStore (startGame st newId time gameTypeId addrs).1
  | join (st : GameStore) (gameId playerAddress : String) (time : Nat) :
      ReachableStore st →
      ReachableStore (joinGame st gameId playerAddress time).1
  | move (st : GameStore) (gameId playerAddress : String) (mv : Move)
      (isCorrect : Bool) :
      ReachableStore st →
      ReachableStore (makeMove st gameId playerAddress mv isCorrect).1
  | bet (st : GameStore) (gameId playerAddress : String) (amount : ℚ)
      (prediction betId : String) :
      ReachableStore st →
      ReachableStore (placeBet st gameId playerAddress amount
        prediction betId).1

end GameAgent

/-!
## `shouldHandleMessage` relevance predicates

Each handler lowercases the message content and tests whether any
keyword of its fixed list occurs in it (`src/lib/agents/trading-agent.ts`
lines 413-423, `src/unnamed/part_000` lines 162-170, `src/unnamed/part_002`
lines 132-140).  The embeddings are pure functions of the content alone,
exactly as the sources read nothing but `message.content`.
-/

def tradingKeywords : List String :=
  ["trade", "swap", "buy", "sell", "defi", "token", "price", "portfolio",
   "balance", "uniswap", "dex", "yield", "liquidity", "farming", "deploy",
   "transfer", "send", "receive", "wallet", "transaction", "blockchain",
   "eth", "usdc", "weth", "base", "sepolia", "faucet", "testnet"]

def miniappKeywords : List String :=
  ["app", "tool", "launch", "open", "calculate", "convert", "poll",
   "calculator", "converter", "utility", "mini-app", "miniapp"]

def gameKeywords : List String :=
  ["game", "play", "trivia", "quiz", "bet", "wager", "challenge",
   "compete", "tournament", "fun", "entertainment"]

def tradingShouldHandle (content : String) : Bool :=
  tradingKeywords.any fun keyword => strIncludes (lowerStr content) keyword

def miniappShouldHandle (content : String) : Bool :=
  miniappKeywords.any fun keyword => strIncludes (lowerStr content) keyword

def gameShouldHandle (content : String) : Bool :=
  gameKeywords.any fun keyword => strIncludes (lowerStr content) keyword

/-- A handler predicate of this keyword-membership shape holds exactly
when some keyword occurs contiguously in the lowercased content. -/
theorem keywordAny_iff (ks : List String) (content : String) :
    (ks.any fun keyword => strIncludes (lowerStr content) keyword) = true ↔
      ∃ k ∈ ks, ∃ p t, (lowerStr content).data = p ++ k.data ++ t := by
  rw [List.any_eq_true]
  constructor
  · rintro ⟨k, hk, h⟩
    exact ⟨k, hk, (strIncludes_iff _ _).mp h⟩
  · rintro ⟨k, hk, h⟩
    exact ⟨k, hk, (strIncludes_iff _ _).mpr h⟩

/-!
## Claim theorems
-/

/-- Claim C1: for every equal-split PaymentSplit created with total
amount `T` and a non-empty participant list, each participant's owed
amount equals `T / n` and the owed amounts sum to exactly `T` (hence
within the floating-point tolerance `1e-6`); the arithmetic is exact in
the rational model of the JS numbers. -/
theorem C1_equal_split_exact (splits : List (String × PaymentSplit))
    (splitId : String) (T : ℚ) (currency : String) (parts : List String)
    (h : parts ≠ []) :
    (∀ p ∈ (UtilityAgent.createPaymentSplit splits splitId T currency parts
        SplitMethod.equal).2.participants,
      p.amount = T / (parts.length : ℚ)) ∧
    (owedAmounts (UtilityAgent.createPaymentSplit splits splitId T currency
        parts SplitMethod.equal).2).sum = T ∧
    |(owedAmounts (UtilityAgent.createPaymentSplit splits splitId T currency
        parts SplitMethod.equal).2).sum - T| ≤ 1 / 1000000 := by
  have hlen0 : parts.length ≠ 0 := fun h0 => h (List.length_eq_zero.mp h0)
  have hlen : (parts.length : ℚ) ≠ 0 := Nat.cast_ne_zero.mpr hlen0
  have hparts : (UtilityAgent.createPaymentSplit splits splitId T currency
      parts SplitMethod.equal).2.participants =
      parts.map fun address =>
        ({ address := address, amount := T / (parts.length : ℚ)
           paid := false } : PaymentParticipant) := by
    simp [UtilityAgent.createPaymentSplit]
  have hsum : (owedAmounts (UtilityAgent.createPaymentSplit splits splitId T
      currency parts SplitMethod.equal).2).sum = T := by
    rw [owedAmounts, hparts, List.map_map]
    have hcomp : ((fun p : PaymentParticipant => p.amount) ∘ fun address =>
        ({ address := address, amount := T / (parts.length : ℚ)
           paid := false } : PaymentParticipant)) =
        fun _ => T / (parts.length : ℚ) := rfl
    rw [hcomp, sum_map_const, mul_comm, div_mul_cancel₀ T hlen]
  refine ⟨?_, hsum, ?_⟩
  · intro p hp
    rw [hparts] at hp
    simp only [List.mem_map] at hp
    obtain ⟨a, -, rfl⟩ := hp
    rfl
  · rw [hsum]
    norm_num

/-- Witness for C1 at the spec's own example: 120 split equally among
alice, bob and carol. -/
theorem C1_equal_split_exact_witness :
    (∀ p ∈ (UtilityAgent.createPaymentSplit [] "split1" 120 "USD"
        ["alice", "bob", "carol"] SplitMethod.equal).2.participants,
      p.amount = 120 / ((["alice", "bob", "carol"] : List String).length : ℚ)) ∧
    (owedAmounts (UtilityAgent.createPaymentSplit [] "split1" 120 "USD"
        ["alice", "bob", "carol"] SplitMethod.equal).2).sum = 120 ∧
    |(owedAmounts (UtilityAgent.createPaymentSplit [] "split1" 120 "USD"
        ["alice", "bob", "carol"] SplitMethod.equal).2).sum - 120| ≤
      1 / 1000000 :=
  C1_equal_split_exact [] "split1" 120 "USD" ["alice", "bob", "carol"]
    (by decide)

/-- Claim C8: each handler's `shouldHandleMessage` is the pure predicate
"some keyword of the handler's fixed list occurs in the lowercased
content" — stated as an iff between the executable embedding and the
mathematical substring condition (determinism and absence of store
mutation hold because the embedding is a function of the content
alone, as the sources read nothing else). -/
theorem C8_shouldHandle_keyword_iff (content : String) :
    (tradingShouldHandle content = true ↔
      ∃ k ∈ tradingKeywords, ∃ p t,
        (lowerStr content).data = p ++ k.data ++ t) ∧
    (miniappShouldHandle content = true ↔
      ∃ k ∈ miniappKeywords, ∃ p t,
        (lowerStr content).data = p ++ k.data ++ t) ∧
    (gameShouldHandle content = true ↔
      ∃ k ∈ gameKeywords, ∃ p t,
        (lowerStr content).data = p ++ k.data ++ t) :=
  ⟨keywordAny_iff tradingKeywords content,
   keywordAny_iff miniappKeywords content,
   keywordAny_iff gameKeywords content⟩

/-- Every rate actually present in the mock table is non-zero, so the
JS `|| 1` falsiness guard never rewrites a table rate. -/
theorem mockRate_ne_zero {f t : String} {inner : List (String × ℚ)} {r : ℚ}
    (hf : alookup f MiniAppAgent.mockRates = some inner)
    (ht : alookup t inner = some r) : r ≠ 0 := by
  have hm := alookup_mem hf
  have hm2 := alookup_mem ht
  simp only [MiniAppAgent.mockRates, List.mem_cons, List.not_mem_nil,
    or_false, Prod.mk.injEq] at hm
  rcases hm with ⟨-, rfl⟩ | ⟨-, rfl⟩ | ⟨-, rfl⟩ | ⟨-, rfl⟩ <;>
  · simp only [List.mem_cons, List.not_mem_nil, or_false,
      Prod.mk.injEq] at hm2
    rcases hm2 with ⟨-, rfl⟩ | ⟨-, rfl⟩ | ⟨-, rfl⟩ <;> norm_num

/-- Claim C10: a currency pair with no entry in the mock rate table
(matched on the uppercased codes) silently converts at rate 1, returning
the amount unchanged; a pair with a table entry converts at exactly the
table's rate. -/
theorem C10_conversion_rate_fallback (amount : ℚ) (fromCur toCur : String) :
    ((alookup (upperStr fromCur) MiniAppAgent.mockRates).bind
        (fun inner => alookup (upperStr toCur) inner) = none →
      MiniAppAgent.convertCurrency amount fromCur toCur = (amount, 1)) ∧
    (∀ r, (alookup (upperStr fromCur) MiniAppAgent.mockRates).bind
        (fun inner => alookup (upperStr toCur) inner) = some r →
      MiniAppAgent.convertCurrency amount fromCur toCur = (amount * r, r)) := by
  constructor
  · intro hnone
    unfold MiniAppAgent.convertCurrency MiniAppAgent.getMockConversionRate
    cases hf : alookup (upperStr fromCur) MiniAppAgent.mockRates with
    | none => simp [hf]
    | some inner =>
      rw [hf] at hnone
      simp only [Option.some_bind] at hnone
      simp [hf, hnone]
  · intro r hr
    cases hf : alookup (upperStr fromCur) MiniAppAgent.mockRates with
    | none => rw [hf] at hr; simp at hr
    | some inner =>
      rw [hf] at hr
      simp only [Option.some_bind] at hr
      have hne := mockRate_ne_zero hf hr
      unfold MiniAppAgent.convertCurrency MiniAppAgent.getMockConversionRate
      simp [hf, hr, hne]

/-- Witness for C10: USD→JPY has no table entry and converts at rate 1;
USD→ETH (case-insensitively) converts at the table's 0.0003. -/
theorem C10_conversion_rate_fallback_witness :
    MiniAppAgent.convertCurrency 7 "usd" "jpy" = (7, 1) ∧
    MiniAppAgent.convertCurrency 7 "usd" "eth" =
      (7 * (3 / 10000), 3 / 10000) :=
  ⟨(C10_conversion_rate_fallback 7 "usd" "jpy").1 rfl,
   (C10_conversion_rate_fallback 7 "usd" "eth").2 (3 / 10000) rfl⟩

/-- Claim C4 (amended): the `create_payment_split` tool stores the split
as `pending` with every paid-flag `false`, and — because the tool never
touches the stored split again after running the transfers — the stored
flags and status are the same for every transfer outcome: even a fully
successful round of transfers leaves every paid-flag `false` and the
status `pending` (so in particular a split with failed transfers is
never `settled`). -/
theorem C4_split_never_updated (transferOk : String → Bool)
    (splits : List (String × PaymentSplit)) (splitId : String) (T : ℚ)
    (parts : List String) :
    ∃ split,
      alookup splitId (UtilityProd.create_payment_split transferOk splits
        splitId T parts).1 = some split ∧
      split.status = SplitStatus.pending ∧
      ∀ p ∈ split.participants,
        p.paid = false ∧ p.amount = T / (parts.length : ℚ) := by
  refine ⟨_, alookup_aset_self _ _ _, rfl, ?_⟩
  intro p hp
  simp only [List.mem_map] at hp
  obtain ⟨a, -, rfl⟩ := hp
  exact ⟨rfl, rfl⟩

/-- Counterexample to claim C4 as stated: with every transfer
succeeding, the stored split still has every paid-flag `false` (no
successful transfer flips a flag) and stays `pending`. -/
theorem C4_paid_flag_counterexample :
    ((UtilityProd.create_payment_split (fun _ => true) [] "split1" 100
        ["a", "b"]).2.all fun tr => tr.success) = true ∧
    ∃ split,
      alookup "split1" (UtilityProd.create_payment_split (fun _ => true) []
        "split1" 100 ["a", "b"]).1 = some split ∧
      split.status = SplitStatus.pending ∧
      (split.participants.all fun p => !p.paid) = true := by
  refine ⟨rfl, _, alookup_aset_self _ _ _, rfl, rfl⟩

/-- Claim C6: a `makeMove` by an address that is not in the session's
participant list is rejected with the `Player not in game` validation
error, thrown before any mutation, so the whole store (score map
included) is unchanged. -/
theorem C6_nonparticipant_move_rejected (st : GameAgent.GameStore)
    (gameId playerAddress : String) (mv : GameAgent.Move) (isCorrect : Bool)
    (session : GameAgent.GameSession)
    (hs : alookup gameId st = some session)
    (hnp : ∀ p ∈ session.players, p.address ≠ playerAddress) :
    GameAgent.makeMove st gameId playerAddress mv isCorrect =
      (st, Except.error GameAgent.GameErr.playerNotInGame) := by
  have hfind : session.players.find?
      (fun p => p.address == playerAddress) = none := by
    rw [List.find?_eq_none]
    intro p hp
    simp [hnp p hp]
  simp [GameAgent.makeMove, hs, hfind]

/-- The fixture session and store used by the gaming witnesses: a
two-player trivia game as `startGame` creates it. -/
def triviaSession : GameAgent.GameSession :=
  { id := "g1"
    gameType := "trivia"
    players :=
      [{ address := "a", score := 0, isActive := true, joinedAt := 0 },
       { address := "b", score := 0, isActive := true, joinedAt := 0 }]
    status := GameAgent.GameStatus.waiting
    currentRound := 1
    totalRounds := 10
    startTime := 0
    scores := [("b", 0), ("a", 0)]
    bets := [] }

def triviaStore : GameAgent.GameStore := [("g1", triviaSession)]

/-- Witness for C6: the outsider `z` cannot move in the two-player
trivia fixture, and the store is returned unchanged. -/
theorem C6_nonparticipant_move_rejected_witness :
    GameAgent.makeMove triviaStore "g1" "z" (GameAgent.Move.mstr "x") true =
      (triviaStore, Except.error GameAgent.GameErr.playerNotInGame) :=
  C6_nonparticipant_move_rejected triviaStore "g1" "z"
    (GameAgent.Move.mstr "x") true triviaSession (by rfl) (by decide)

/-- Claim C7: `joinGame` on a session whose status is not `waiting`
fails with the `Game already started` error and leaves the store (hence
the participant list and score map) unchanged; a successful join stores
the same session with exactly the new player appended at score 0 (and
their score-map entry zeroed), touching no other session. -/
theorem C7_join_requires_waiting (st : GameAgent.GameStore)
    (gameId playerAddress : String) (time : Nat) :
    (∀ session, alookup gameId st = some session →
      session.status ≠ GameAgent.GameStatus.waiting →
      GameAgent.joinGame st gameId playerAddress time =
        (st, Except.error GameAgent.GameErr.gameAlreadyStarted)) ∧
    (∀ st' session, alookup gameId st = some session →
      GameAgent.joinGame st gameId playerAddress time =
        (st', Except.ok ()) →
      alookup gameId st' = some { session with
        players := session.players ++
          [{ address := playerAddress, score := 0, isActive := true
             joinedAt := time }]
        scores := aset playerAddress 0 session.scores } ∧
      ∀ g, g ≠ gameId → alookup g st' = alookup g st) := by
  constructor
  · intro session hs hst
    simp [GameAgent.joinGame, hs, hst]
  · intro st' session hs hok
    unfold GameAgent.joinGame at hok
    rw [hs] at hok
    by_cases hw : session.status ≠ GameAgent.GameStatus.waiting
    · simp [hw] at hok
    · simp only [hw, if_neg, ite_not, if_pos] at hok
      cases hgt : alookup session.gameType GameAgent.gameTypes with
      | none => rw [hgt] at hok; simp at hok
      | some gt =>
        rw [hgt] at hok
        by_cases hfull : session.players.length ≥ gt.maxPlayers
        · simp [hfull] at hok
        · simp only [hfull, if_neg, if_pos, Prod.mk.injEq] at hok
          obtain ⟨rfl, -⟩ := hok
          constructor
          · exact alookup_aset_self _ _ _
          · intro g hg
            exact alookup_aset_ne (fun hh => hg hh.symm) _ _

/-- A non-waiting fixture for the C7 witness. -/
def activeTrivia : GameAgent.GameSession :=
  { triviaSession with status := GameAgent.GameStatus.active }

/-- The trivia fixture after `c` joins at time 1. -/
def joinedSession : GameAgent.GameSession :=
  { triviaSession with
    players := triviaSession.players ++
      [{ address := "c", score := 0, isActive := true, joinedAt := 1 }]
    scores := aset "c" 0 triviaSession.scores }

/-- Witness for C7: joining an `active` game fails and changes nothing;
joining the `waiting` fixture stores exactly the appended player. -/
theorem C7_join_requires_waiting_witness :
    GameAgent.joinGame [("g2", activeTrivia)] "g2" "c" 1 =
      ([("g2", activeTrivia)],
        Except.error GameAgent.GameErr.gameAlreadyStarted) ∧
    alookup "g1" [("g1", joinedSession)] = some joinedSession ∧
    alookup "zz" [("g1", joinedSession)] = alookup "zz" triviaStore := by
  refine ⟨(C7_join_requires_waiting [("g2", activeTrivia)] "g2" "c" 1).1
    activeTrivia rfl (by decide), ?_, ?_⟩
  · exact ((C7_join_requires_waiting triviaStore "g1" "c" 1).2
      [("g1", joinedSession)] triviaSession rfl rfl).1
  · exact ((C7_join_requires_waiting triviaStore "g1" "c" 1).2
      [("g1", joinedSession)] triviaSession rfl rfl).2 "zz" (by decide)

/-- Claim C3 (amended): a successful `closeApp` deletes the session from
`activeSessions`, so every subsequent `interact` call on that session —
by any caller — is rejected with the `Session not found` (not-found
style) error, and the whole agent state is unchanged by the rejected
call. -/
theorem C3_closed_interact_not_found (st st' : MiniAppAgent.MiniAppAgentState)
    (sessionId userId : String)
    (hclose : MiniAppAgent.closeApp st sessionId userId =
      (st', Except.ok ())) :
    ∀ evalFn userId' action data now,
      MiniAppAgent.interactWithApp evalFn st' sessionId userId' action data
          now =
        (st', { success := false
                message := MiniAppAgent.InteractMsg.sessionNotFound
                newState := none }) := by
  have hact : alookup sessionId st'.activeSessions = none := by
    unfold MiniAppAgent.closeApp at hclose
    cases hl : alookup sessionId st.activeSessions with
    | none => rw [hl] at hclose; simp at hclose
    | some session =>
      rw [hl] at hclose
      by_cases hmem : userId ∈ session.participants
      · simp only [hmem, if_pos, Prod.mk.injEq] at hclose
        obtain ⟨rfl, -⟩ := hclose
        exact alookup_aerase_self _ _
      · simp [hmem] at hclose
  intro evalFn userId' action data now
  unfold MiniAppAgent.interactWithApp
  rw [hact]

/-- The calculator-session fixture used by the mini-app claims. -/
def calcSession : MiniAppAgent.MiniAppSession :=
  { id := "s1"
    appId := "calculator"
    conversationId := "c1"
    participants := ["u"]
    state := []
    startTime := 0
    lastActivity := 0
    isActive := true }

def calcAgentState : MiniAppAgent.MiniAppAgentState :=
  { activeSessions := [("s1", calcSession)]
    userSessions := [("u", ["s1"])] }

/-- The agent state after `u` closes the fixture session. -/
def closedAgentState : MiniAppAgent.MiniAppAgentState :=
  { activeSessions := []
    userSessions := [("u", [])] }

/-- Witness for the amended C3: after `u` closes the fixture session,
`u`'s own `interact` is rejected with `Session not found` and the state
is unchanged. -/
theorem C3_closed_interact_not_found_witness :
    MiniAppAgent.interactWithApp (fun _ => none) closedAgentState "s1" "u"
        "calculate" (some { expression := some "1+1" }) 5 =
      (closedAgentState,
       { success := false
         message := MiniAppAgent.InteractMsg.sessionNotFound
         newState := none }) :=
  C3_closed_interact_not_found calcAgentState closedAgentState "s1" "u" rfl
    (fun _ => none) "u" "calculate" (some { expression := some "1+1" }) 5

/-- Counterexample to claim C3 as stated: the rejection after a close is
the not-found message, not an authorization-style one (the session was
deleted, so the authorization branch is never reached). -/
theorem C3_closed_interact_counterexample :
    (MiniAppAgent.closeApp calcAgentState "s1" "u").2 = Except.ok () ∧
    (MiniAppAgent.interactWithApp (fun _ => none)
        (MiniAppAgent.closeApp calcAgentState "s1" "u").1 "s1" "u"
        "calculate" (some { expression := some "1+1" }) 5).2.message =
      MiniAppAgent.InteractMsg.sessionNotFound ∧
    MiniAppAgent.InteractMsg.sessionNotFound ≠
      MiniAppAgent.InteractMsg.notAuthorized ∧
    (MiniAppAgent.interactWithApp (fun _ => none)
        (MiniAppAgent.closeApp calcAgentState "s1" "u").1 "s1" "u"
        "calculate" (some { expression := some "1+1" }) 5).1 =
      (MiniAppAgent.closeApp calcAgentState "s1" "u").1 :=
  ⟨rfl, rfl, by decide, rfl⟩

/-- A failed calculator interaction carries no state update. -/
theorem handleCalculator_fail_newState (evalFn : String → Option ℚ)
    (action : String) (data : Option MiniAppAgent.InteractData) :
    (MiniAppAgent.handleCalculatorInteraction evalFn action
        data).success = false →
    (MiniAppAgent.handleCalculatorInteraction evalFn action data).newState =
      none := by
  unfold MiniAppAgent.handleCalculatorInteraction
  split
  · split
    · split
      · intro h; simp at h
      · intro _; rfl
    · intro _; rfl
  · intro _; rfl

/-- A failed converter interaction carries no state update. -/
theorem handleConverter_fail_newState (action : String)
    (data : Option MiniAppAgent.InteractData) :
    (MiniAppAgent.handleConverterInteraction action data).success = false →
    (MiniAppAgent.handleConverterInteraction action data).newState =
      none := by
  unfold MiniAppAgent.handleConverterInteraction
  split
  · split
    · intro h; simp at h
    · intro _; rfl
  · intro _; rfl

/-- A failed poll interaction carries no state update. -/
theorem handlePoll_fail_newState (session : MiniAppAgent.MiniAppSession)
    (userId action : String) (data : Option MiniAppAgent.InteractData) :
    (MiniAppAgent.handlePollInteraction session userId action
        data).success = false →
    (MiniAppAgent.handlePollInteraction session userId action data).newState =
      none := by
  unfold MiniAppAgent.handlePollInteraction
  split
  · split
    · intro h; simp at h
    · intro _; rfl
  · intro _; rfl

/-- Every app handler that reports failure reports it with no state
update, so the unconditional spread-merge in `interactWithApp` leaves
the state blob untouched on failure. -/
theorem processAppInteraction_fail_newState (evalFn : String → Option ℚ)
    (session : MiniAppAgent.MiniAppSession) (userId action : String)
    (data : Option MiniAppAgent.InteractData) :
    (MiniAppAgent.processAppInteraction evalFn session userId action
        data).success = false →
    (MiniAppAgent.processAppInteraction evalFn session userId action
        data).newState = none := by
  unfold MiniAppAgent.processAppInteraction
  split
  · exact handleCalculator_fail_newState evalFn action data
  · split
    · exact handleConverter_fail_newState action data
    · split
      · exact handlePoll_fail_newState session userId action data
      · intro _; rfl

/-- Claim C5 (amended): the three pre-checks of `interactWithApp`
(unknown session, non-participant caller, unknown app) leave the agent
state entirely unchanged; but when the app-specific handler itself
rejects the action (returning `success = false`), the session's
`lastActivity` timestamp is still updated to the call time — only the
state blob is left untouched, so the mutation is not all-or-nothing. -/
theorem C5_atomicity_amended (evalFn : String → Option ℚ)
    (st : MiniAppAgent.MiniAppAgentState) (sessionId userId action : String)
    (data : Option MiniAppAgent.InteractData) (now : Nat) :
    (alookup sessionId st.activeSessions = none →
      MiniAppAgent.interactWithApp evalFn st sessionId userId action data
          now =
        (st, { success := false
               message := MiniAppAgent.InteractMsg.sessionNotFound
               newState := none })) ∧
    (∀ session, alookup sessionId st.activeSessions = some session →
      userId ∉ session.participants →
      MiniAppAgent.interactWithApp evalFn st sessionId userId action data
          now =
        (st, { success := false
               message := MiniAppAgent.InteractMsg.notAuthorized
               newState := none })) ∧
    (∀ session, alookup sessionId st.activeSessions = some session →
      userId ∈ session.participants →
      alookup session.appId MiniAppAgent.availableApps = none →
      MiniAppAgent.interactWithApp evalFn st sessionId userId action data
          now =
        (st, { success := false
               message := MiniAppAgent.InteractMsg.appNotFound
               newState := none })) ∧
    (∀ session app, alookup sessionId st.activeSessions = some session →
      userId ∈ session.participants →
      alookup session.appId MiniAppAgent.availableApps = some app →
      (MiniAppAgent.processAppInteraction evalFn session userId action
          data).success = false →
      MiniAppAgent.interactWithApp evalFn st sessionId userId action data
          now =
        ({ st with activeSessions :=
             (aset sessionId ({ session with lastActivity := now })
               st.activeSessions) },
         MiniAppAgent.processAppInteraction evalFn session userId action
           data)) := by
  refine ⟨?_, ?_, ?_, ?_⟩
  · intro h
    unfold MiniAppAgent.interactWithApp
    rw [h]
  · intro session hs hmem
    simp [MiniAppAgent.interactWithApp, hs, hmem]
  · intro session hs hmem happ
    simp [MiniAppAgent.interactWithApp, hs, hmem, happ]
  · intro session app hs hmem happ hfail
    have hnew := processAppInteraction_fail_newState evalFn session userId
      action data hfail
    simp only [MiniAppAgent.interactWithApp, hs, hmem, if_pos, happ, hnew,
      MiniAppAgent.mergeState]

/-- A fixture session whose app id is not in the registry. -/
def mysterySession : MiniAppAgent.MiniAppSession :=
  { calcSession with appId := "mystery" }

def mysteryAgentState : MiniAppAgent.MiniAppAgentState :=
  { activeSessions := [("s1", mysterySession)], userSessions := [] }

/-- Witness for the amended C5, one concrete instance per branch: the
three pre-checks change nothing, and a rejected calculator action still
bumps `lastActivity` to the call time. -/
theorem C5_atomicity_amended_witness :
    MiniAppAgent.interactWithApp (fun _ => none) closedAgentState "s1" "u"
        "calculate" none 5 =
      (closedAgentState,
       { success := false
         message := MiniAppAgent.InteractMsg.sessionNotFound
         newState := none }) ∧
    MiniAppAgent.interactWithApp (fun _ => none) calcAgentState "s1" "w"
        "calculate" none 5 =
      (calcAgentState,
       { success := false
         message := MiniAppAgent.InteractMsg.notAuthorized
         newState := none }) ∧
    MiniAppAgent.interactWithApp (fun _ => none) mysteryAgentState "s1" "u"
        "calculate" none 5 =
      (mysteryAgentState,
       { success := false
         message := MiniAppAgent.InteractMsg.appNotFound
         newState := none }) ∧
    MiniAppAgent.interactWithApp (fun _ => none) calcAgentState "s1" "u"
        "noop" none 5 =
      ({ calcAgentState with activeSessions :=
           (aset "s1" ({ calcSession with lastActivity := 5 })
             calcAgentState.activeSessions) },
       MiniAppAgent.processAppInteraction (fun _ => none) calcSession "u"
         "noop" none) :=
  ⟨(C5_atomicity_amended (fun _ => none) closedAgentState "s1" "u"
      "calculate" none 5).1 rfl,
   (C5_atomicity_amended (fun _ => none) calcAgentState "s1" "w"
      "calculate" none 5).2.1 calcSession rfl (by decide),
   (C5_atomicity_amended (fun _ => none) mysteryAgentState "s1" "u"
      "calculate" none 5).2.2.1 mysterySession rfl (by decide) rfl,
   (C5_atomicity_amended (fun _ => none) calcAgentState "s1" "u"
      "noop" none 5).2.2.2 calcSession
     { id := "calculator", name := "Calculator"
       description := "Perform mathematical calculations"
       version := "1.0.0", icon := "🧮", category := "utility"
       permissions := [], url := "/apps/calculator", isActive := true }
     rfl (by decide) rfl rfl⟩

/-- Counterexample to claim C5 as stated: a `noop` calculator action
fails validation (`success = false`) yet the agent state is mutated —
the session's `lastActivity` becomes the call time 5. -/
theorem C5_lastActivity_counterexample :
    (MiniAppAgent.interactWithApp (fun _ => none) calcAgentState "s1" "u"
        "noop" none 5).2.success = false ∧
    (MiniAppAgent.interactWithApp (fun _ => none) calcAgentState "s1" "u"
        "noop" none 5).1 ≠ calcAgentState ∧
    ((alookup "s1" (MiniAppAgent.interactWithApp (fun _ => none)
        calcAgentState "s1" "u" "noop" none 5).1.activeSessions).map
      fun s => s.lastActivity) = some 5 := by
  refine ⟨rfl, ?_, rfl⟩
  decide

/-- The registry entry for the calculator app. -/
def calculatorDef : MiniAppAgent.MiniAppDefinition :=
  { id := "calculator", name := "Calculator"
    description := "Perform mathematical calculations"
    version := "1.0.0", icon := "🧮", category := "utility"
    permissions := [], url := "/apps/calculator", isActive := true }

/-- Claim C9: an expression containing any character outside
`[0-9+\-*/.() ]` is rejected by `evaluateExpression` before the opaque
evaluator is ever consulted (the result is the invalid-characters error
for every evaluator), and a calculator `interact` carrying such an
expression reports `Invalid expression` with the session's state blob
unchanged. -/
theorem C9_invalid_expression_rejected (e : String)
    (hbad : ∃ c ∈ e.data, MiniAppAgent.allowedChar c = false) :
    (∀ evalFn, MiniAppAgent.evaluateExpression evalFn e =
      Except.error MiniAppAgent.EvalErr.invalidChars) ∧
    (∀ evalFn st sessionId userId session data now,
      alookup sessionId st.activeSessions = some session →
      session.appId = "calculator" →
      userId ∈ session.participants →
      data.bind MiniAppAgent.InteractData.expression = some e →
      (MiniAppAgent.interactWithApp evalFn st sessionId userId "calculate"
          data now).2 =
        { success := false
          message := MiniAppAgent.InteractMsg.invalidExpression
          newState := none } ∧
      ∃ session', alookup sessionId
          (MiniAppAgent.interactWithApp evalFn st sessionId userId
            "calculate" data now).1.activeSessions = some session' ∧
        session'.state = session.state) := by
  have hsan : MiniAppAgent.sanitize e ≠ e := by
    intro heq
    obtain ⟨c, hc, hca⟩ := hbad
    have hdata : e.data.filter MiniAppAgent.allowedChar = e.data :=
      congrArg String.data heq
    have hall := (List.filter_eq_self.mp hdata) c hc
    rw [hca] at hall
    cases hall
  have heval : ∀ evalFn, MiniAppAgent.evaluateExpression evalFn e =
      Except.error MiniAppAgent.EvalErr.invalidChars := by
    intro evalFn
    simp [MiniAppAgent.evaluateExpression, hsan]
  have hne : e ≠ "" := by
    intro h0
    obtain ⟨c, hc, -⟩ := hbad
    rw [h0] at hc
    simp at hc
  refine ⟨heval, ?_⟩
  intro evalFn st sessionId userId session data now hs happid hmem hde
  have hcalc : MiniAppAgent.handleCalculatorInteraction evalFn "calculate"
      data =
      { success := false
        message := MiniAppAgent.InteractMsg.invalidExpression
        newState := none } := by
    simp [MiniAppAgent.handleCalculatorInteraction, hde, hne, heval]
  have hproc : MiniAppAgent.processAppInteraction evalFn session userId
      "calculate" data =
      { success := false
        message := MiniAppAgent.InteractMsg.invalidExpression
        newState := none } := by
    unfold MiniAppAgent.processAppInteraction
    rw [if_pos happid]
    exact hcalc
  have happ : alookup session.appId MiniAppAgent.availableApps =
      some calculatorDef := by
    rw [happid]
    rfl
  constructor
  · simp [MiniAppAgent.interactWithApp, hs, hmem, happ, hproc]
  · refine ⟨{ session with lastActivity := now }, ?_, rfl⟩
    simp [MiniAppAgent.interactWithApp, hs, hmem, happ, hproc,
      MiniAppAgent.mergeState, alookup_aset_self]

/-- Witness for C9 at the expression `2+x` (the `x` is outside the
allowed character class). -/
theorem C9_invalid_expression_rejected_witness :
    MiniAppAgent.evaluateExpression (fun _ => none) "2+x" =
      Except.error MiniAppAgent.EvalErr.invalidChars ∧
    ((MiniAppAgent.interactWithApp (fun _ => none) calcAgentState "s1" "u"
        "calculate" (some { expression := some "2+x" }) 7).2 =
      { success := false
        message := MiniAppAgent.InteractMsg.invalidExpression
        newState := none } ∧
    ∃ session', alookup "s1"
        (MiniAppAgent.interactWithApp (fun _ => none) calcAgentState "s1"
          "u" "calculate" (some { expression := some "2+x" })
          7).1.activeSessions = some session' ∧
      session'.state = calcSession.state) :=
  ⟨(C9_invalid_expression_rejected "2+x" (by decide)).1 (fun _ => none),
   (C9_invalid_expression_rejected "2+x" (by decide)).2 (fun _ => none)
     calcAgentState "s1" "u" calcSession
     (some { expression := some "2+x" }) 7 rfl rfl (by decide) rfl⟩

/-- Every game category yields at least one round. -/
theorem one_le_calculateRounds (gt : GameAgent.GameType) :
    1 ≤ GameAgent.calculateRounds gt := by
  unfold GameAgent.calculateRounds
  repeat' split
  all_goals norm_num

/-- Trivia moves never touch the round counters. -/
theorem processTriviaMove_fields (session : GameAgent.GameSession)
    (addr : String) (c : Bool) :
    (GameAgent.processTriviaMove session addr c).1.currentRound =
        session.currentRound ∧
      (GameAgent.processTriviaMove session addr c).1.totalRounds =
        session.totalRounds := by
  unfold GameAgent.processTriviaMove
  split <;> exact ⟨rfl, rfl⟩

/-- Word moves never touch the round counters. -/
theorem processWordMove_fields (session : GameAgent.GameSession)
    (addr : String) (mv : GameAgent.Move) :
    (GameAgent.processWordMove session addr mv).1.currentRound =
        session.currentRound ∧
      (GameAgent.processWordMove session addr mv).1.totalRounds =
        session.totalRounds := by
  unfold GameAgent.processWordMove
  split
  · split <;> exact ⟨rfl, rfl⟩
  · exact ⟨rfl, rfl⟩

/-- Number moves never touch the round counters. -/
theorem processNumberMove_fields (session : GameAgent.GameSession)
    (addr : String) (mv : GameAgent.Move) :
    (GameAgent.processNumberMove session addr mv).1.currentRound =
        session.currentRound ∧
      (GameAgent.processNumberMove session addr mv).1.totalRounds =
        session.totalRounds := by
  unfold GameAgent.processNumberMove
  split
  · exact ⟨rfl, rfl⟩
  · split
    · exact ⟨rfl, rfl⟩
    · split <;> exact ⟨rfl, rfl⟩

/-- Processed moves change scores only, never the round counters. -/
theorem processMove_fields (session : GameAgent.GameSession)
    (addr : String) (mv : GameAgent.Move) (c : Bool)
    (s' : GameAgent.GameSession) (r : GameAgent.MoveResult) :
    GameAgent.processMove session addr mv c = some (s', r) →
    s'.currentRound = session.currentRound ∧
      s'.totalRounds = session.totalRounds := by
  unfold GameAgent.processMove
  split
  · intro h; cases h
  · split
    · intro h
      injection h with h
      have hf := processTriviaMove_fields session addr c
      rw [h] at hf
      exact hf
    · split
      · intro h
        injection h with h
        have hf := processWordMove_fields session addr mv
        rw [h] at hf
        exact hf
      · split
        · intro h
          injection h with h
          have hf := processNumberMove_fields session addr mv
          rw [h] at hf
          exact hf
        · split
          · intro h
            injection h with h
            have hf : (GameAgent.processStrategyMove session
                addr).1.currentRound = session.currentRound ∧
                (GameAgent.processStrategyMove session addr).1.totalRounds =
                  session.totalRounds := ⟨rfl, rfl⟩
            rw [h] at hf
            exact hf
          · intro h
            injection h with h
            injection h with h1 h2
            subst h1
            exact ⟨rfl, rfl⟩

/-- A session looked up after `startGame` is an old session or the
fresh one, which starts at round 1 with at least one total round. -/
theorem startGame_lookup (st : GameAgent.GameStore) (newId : String)
    (time : Nat) (gameTypeId : String) (addrs : List String) (gid : String)
    (s : GameAgent.GameSession) :
    alookup gid (GameAgent.startGame st newId time gameTypeId addrs).1 =
      some s →
    alookup gid st = some s ∨
      (s.currentRound = 1 ∧ 1 ≤ s.totalRounds) := by
  unfold GameAgent.startGame
  split
  · exact fun h => Or.inl h
  · split
    · exact fun h => Or.inl h
    · intro h
      rename_i x0 gt hgt hcount
      simp only [alookup_aset] at h
      by_cases hg : newId = gid
      · rw [if_pos hg] at h
        injection h with h
        subst h
        right
        exact ⟨rfl, one_le_calculateRounds gt⟩
      · rw [if_neg hg] at h
        exact Or.inl h

/-- A session looked up after `joinGame` is an old session or an old
session with the new player appended — round counters unchanged. -/
theorem joinGame_lookup (st : GameAgent.GameStore)
    (gameId playerAddress : String) (time : Nat) (gid : String)
    (s : GameAgent.GameSession) :
    alookup gid (GameAgent.joinGame st gameId playerAddress time).1 =
      some s →
    alookup gid st = some s ∨
      ∃ s0, alookup gid st = some s0 ∧ s.currentRound = s0.currentRound ∧
        s.totalRounds = s0.totalRounds := by
  unfold GameAgent.joinGame
  split
  · exact fun h => Or.inl h
  · split
    · exact fun h => Or.inl h
    · split
      · exact fun h => Or.inl h
      · split
        · exact fun h => Or.inl h
        · intro h
          rename_i x1 session hsess hnw x2 gt hgt hfull
          simp only [alookup_aset] at h
          by_cases hg : gameId = gid
          · rw [if_pos hg] at h
            injection h with h
            subst h
            right
            exact ⟨session, by rw [← hg]; exact hsess, rfl, rfl⟩
          · rw [if_neg hg] at h
            exact Or.inl h

/-- A session looked up after `makeMove` is an old session or a
processed old session — round counters unchanged. -/
theorem makeMove_lookup (st : GameAgent.GameStore)
    (gameId playerAddress : String) (mv : GameAgent.Move) (c : Bool)
    (gid : String) (s : GameAgent.GameSession) :
    alookup gid (GameAgent.makeMove st gameId playerAddress mv c).1 =
      some s →
    alookup gid st = some s ∨
      ∃ s0, alookup gid st = some s0 ∧ s.currentRound = s0.currentRound ∧
        s.totalRounds = s0.totalRounds := by
  unfold GameAgent.makeMove
  split
  · exact fun h => Or.inl h
  · split
    · exact fun h => Or.inl h
    · split
      · exact fun h => Or.inl h
      · intro h
        rename_i x2 session hsess x1 player hfind x0 session' result hproc
        simp only [alookup_aset] at h
        by_cases hg : gameId = gid
        · rw [if_pos hg] at h
          injection h with h
          subst h
          right
          have hf := processMove_fields session playerAddress mv c
            session' result hproc
          exact ⟨session, by rw [← hg]; exact hsess, hf.1, hf.2⟩
        · rw [if_neg hg] at h
          exact Or.inl h

/-- A session looked up after `placeBet` is an old session or an old
session with a bet appended — round counters unchanged. -/
theorem placeBet_lookup (st : GameAgent.GameStore)
    (gameId playerAddress : String) (amount : ℚ) (prediction betId : String)
    (gid : String) (s : GameAgent.GameSession) :
    alookup gid (GameAgent.placeBet st gameId playerAddress amount
      prediction betId).1 = some s →
    alookup gid st = some s ∨
      ∃ s0, alookup gid st = some s0 ∧ s.currentRound = s0.currentRound ∧
        s.totalRounds = s0.totalRounds := by
  unfold GameAgent.placeBet
  split
  · exact fun h => Or.inl h
  · intro h
    rename_i x0 session hsess
    simp only [alookup_aset] at h
    by_cases hg : gameId = gid
    · rw [if_pos hg] at h
      injection h with h
      subst h
      right
      exact ⟨session, by rw [← hg]; exact hsess, rfl, rfl⟩
    · rw [if_neg hg] at h
      exact Or.inl h

/-- The round-bound invariant over every reachable game store: no
operation ever advances `currentRound` past `totalRounds` (indeed none
changes either counter after creation). -/
theorem reachable_round_bound (st : GameAgent.GameStore)
    (h : GameAgent.ReachableStore st) :
    ∀ gid s, alookup gid st = some s →
      s.currentRound ≤ s.totalRounds := by
  induction h with
  | empty =>
    intro gid s h
    simp [alookup] at h
  | start st newId time gameTypeId addrs hr ih =>
    intro gid s h
    rcases startGame_lookup st newId time gameTypeId addrs gid s h with
      h' | ⟨h1, h2⟩
    · exact ih gid s h'
    · omega
  | join st gameId playerAddress time hr ih =>
    intro gid s h
    rcases joinGame_lookup st gameId playerAddress time gid s h with
      h' | ⟨s0, hs0, e1, e2⟩
    · exact ih gid s h'
    · rw [e1, e2]
      exact ih gid s0 hs0
  | move st gameId playerAddress mv c hr ih =>
    intro gid s h
    rcases makeMove_lookup st gameId playerAddress mv c gid s h with
      h' | ⟨s0, hs0, e1, e2⟩
    · exact ih gid s h'
    · rw [e1, e2]
      exact ih gid s0 hs0
  | bet st gameId playerAddress amount prediction betId hr ih =>
    intro gid s h
    rcases placeBet_lookup st gameId playerAddress amount prediction betId
      gid s h with h' | ⟨s0, hs0, e1, e2⟩
    · exact ih gid s h'
    · rw [e1, e2]
      exact ih gid s0 hs0

/-- `makeMove` never inspects `session.status`: on a trivia session a
listed participant's move is processed whatever the status — with a
correct answer the score map gains 10 points. -/
theorem makeMove_ignores_status (st : GameAgent.GameStore)
    (gameId playerAddress : String) (mv : GameAgent.Move)
    (session : GameAgent.GameSession)
    (hs : alookup gameId st = some session)
    (htype : session.gameType = "trivia")
    (hfind : (session.players.find? fun p =>
      p.address == playerAddress).isSome = true) :
    GameAgent.makeMove st gameId playerAddress mv true =
      (aset gameId
        ({ session with
            scores := GameAgent.bumpScore playerAddress 10 session.scores })
        st,
       Except.ok { success := true
                   message := GameAgent.MoveMsg.correctPlus10 }) := by
  obtain ⟨p, hp⟩ := Option.isSome_iff_exists.mp hfind
  have hgt : alookup session.gameType GameAgent.gameTypes =
      some { id := "trivia", name := "Trivia Quiz"
             description := "Answer questions to earn points"
             minPlayers := 2, maxPlayers := 10, duration := 15
             category := "trivia" } := by
    rw [htype]
    rfl
  have hproc : GameAgent.processMove session playerAddress mv true =
      some ({ session with scores :=
          GameAgent.bumpScore playerAddress 10 session.scores },
        { success := true, message := GameAgent.MoveMsg.correctPlus10 }) := by
    unfold GameAgent.processMove
    rw [hgt]
    rfl
  simp only [GameAgent.makeMove, hs, hp, hproc]

/-- Claim C2 (amended): in every game store reachable through the
agent's operations, `currentRound` never exceeds `totalRounds` (no
operation ever changes either counter from the `round 1 / ≥ 1` values
set at creation).  However `makeMove` performs no status check at all:
on a session whose status is `completed`, a listed participant's trivia
move is processed normally and (when the answer is judged correct)
mutates the score map instead of failing with a validation error — a
`completed` status simply never arises from the operations themselves. -/
theorem C2_round_bound_and_no_status_check :
    (∀ st, GameAgent.ReachableStore st → ∀ gid s, alookup gid st = some s →
      s.currentRound ≤ s.totalRounds) ∧
    (∀ st gameId playerAddress mv session,
      alookup gameId st = some session →
      session.status = GameAgent.GameStatus.completed →
      session.gameType = "trivia" →
      (session.players.find? fun p =>
        p.address == playerAddress).isSome = true →
      GameAgent.makeMove st gameId playerAddress mv true =
        (aset gameId
          ({ session with
              scores := GameAgent.bumpScore playerAddress 10 session.scores })
          st,
         Except.ok { success := true
                     message := GameAgent.MoveMsg.correctPlus10 })) :=
  ⟨fun st h => reachable_round_bound st h,
   fun st gameId playerAddress mv session hs _ ht hf =>
     makeMove_ignores_status st gameId playerAddress mv session hs ht hf⟩

/-- A directly-constructed completed trivia session (unreachable from
the operations, which never set a status other than `waiting`). -/
def completedTrivia : GameAgent.GameSession :=
  { id := "g"
    gameType := "trivia"
    players := [{ address := "a", score := 0, isActive := true
                  joinedAt := 0 }]
    status := GameAgent.GameStatus.completed
    currentRound := 10
    totalRounds := 10
    startTime := 0
    scores := [("a", 0)]
    bets := [] }

/-- Counterexample to claim C2 as stated: on a session whose status is
`completed`, a participant's `makeMove` succeeds (no ValidationError)
and the score map changes from `a ↦ 0` to `a ↦ 10`. -/
theorem C2_completed_move_counterexample :
    completedTrivia.status = GameAgent.GameStatus.completed ∧
    GameAgent.makeMove [("g", completedTrivia)] "g" "a"
        (GameAgent.Move.mstr "rome") true =
      ([("g", { completedTrivia with scores := [("a", 10)] })],
       Except.ok { success := true
                   message := GameAgent.MoveMsg.correctPlus10 }) :=
  ⟨rfl, rfl⟩

/-- Witness for the amended C2: a freshly started two-player trivia
game is reachable and satisfies the round bound, and the completed
fixture shows the status-blind move processing. -/
theorem C2_round_bound_witness :
    triviaSession.currentRound ≤ triviaSession.totalRounds ∧
    GameAgent.makeMove [("g", completedTrivia)] "g" "a"
        (GameAgent.Move.mstr "paris") true =
      (aset "g"
        ({ completedTrivia with
            scores := GameAgent.bumpScore "a" 10 completedTrivia.scores })
        [("g", completedTrivia)],
       Except.ok { success := true
                   message := GameAgent.MoveMsg.correctPlus10 }) :=
  ⟨C2_round_bound_and_no_status_check.1
      (GameAgent.startGame [] "g1" 0 "trivia" ["a", "b"]).1
      (GameAgent.ReachableStore.start [] "g1" 0 "trivia" ["a", "b"]
        GameAgent.ReachableStore.empty)
      "g1" triviaSession rfl,
   C2_round_bound_and_no_status_check.2 [("g", completedTrivia)] "g" "a"
     (GameAgent.Move.mstr "paris") completedTrivia rfl rfl rfl rfl⟩
